import Mathlib

/-!
Shallow embedding of the `auctiondeal_shared` Python library
(`validation.py`, `db.py`) and proofs of its specified properties.

Python values that matter to the claims are modelled explicitly:
exceptions become an `Except PyErr` result, the regular-expression
predicates become executable character-list matchers with the exact
semantics of the compiled patterns (including the `$` anchor matching
just before a final newline), and the database driver becomes an
abstract environment of fallible operations.
-/

namespace Auctiondeal

/-- Python exception kinds distinguished by the library's handlers. -/
inductive PyErr where
  | valueError (msg : String)
  | typeError (msg : String)
  | attributeError (msg : String)
  | validationError (msg : String)
  | otherError (msg : String)
deriving Repr, DecidableEq

/-- Python runtime values as far as the library inspects them. -/
inductive PyVal where
  | none
  | int (n : Int)
  | str (s : String)
deriving Repr, DecidableEq

/-- Severity levels used by the structured logger. -/
inductive LogLevel where
  | info
  | warning
  | error
deriving Repr, DecidableEq

/-- A field mapping, standing in for a Python `dict[str, Any]`. -/
abbrev Params := List (String × String)

/-- One structured log record: severity, message, and the structured
fields the library attaches at its call sites. -/
structure LogEntry where
  level : LogLevel
  message : String
  query : Option String := Option.none
  params : Option (Option Params) := Option.none
  data : Option Params := Option.none
  error : Option String := Option.none
deriving Repr, DecidableEq

/-- `str(e)` for an exception — the message the f-strings interpolate. -/
def PyErr.msg : PyErr → String
  | .valueError m => m
  | .typeError m => m
  | .attributeError m => m
  | .validationError m => m
  | .otherError m => m

/-! ## validation.py — format predicates

`UUID_PATTERN = ^[0-9a-f]{8}-[0-9a-f]{4}-[1-5][0-9a-f]{3}-[89ab][0-9a-f]{3}-[0-9a-f]{12}$`
compiled with `re.IGNORECASE` and used through `re.match` (anchored at
the start).  In Python's default mode `$` matches at the end of the
string or just before a trailing newline, so the executable matchers
below are: the core pattern against the whole string, or against the
string with one final newline removed. -/

/-- `[0-9a-f]` under `re.IGNORECASE`. -/
def isHexChar (c : Char) : Bool :=
  c.isDigit || (Char.ofNat 97 ≤ c && c ≤ Char.ofNat 102) ||
    (Char.ofNat 65 ≤ c && c ≤ Char.ofNat 70)

/-- `[1-5]` — the version nibble. -/
def isVersionChar (c : Char) : Bool :=
  Char.ofNat 49 ≤ c && c ≤ Char.ofNat 53

/-- `[89ab]` under `re.IGNORECASE` — the variant nibble. -/
def isVariantChar (c : Char) : Bool :=
  c == Char.ofNat 56 || c == Char.ofNat 57 ||
    c == Char.ofNat 97 || c == Char.ofNat 98 ||
    c == Char.ofNat 65 || c == Char.ofNat 66

/-- Core of `UUID_PATTERN` against an entire character list:
8-4-4-4-12 hex groups, version nibble `[1-5]`, variant nibble `[89ab]`,
case-insensitive. -/
def uuidCore (cs : List Char) : Bool :=
  cs.length == 36 &&
  (cs.take 8).all isHexChar &&
  cs.get? 8 == some (Char.ofNat 45) &&
  ((cs.drop 9).take 4).all isHexChar &&
  cs.get? 13 == some (Char.ofNat 45) &&
  (match cs.get? 14 with
   | some c => isVersionChar c
   | Option.none => false) &&
  ((cs.drop 15).take 3).all isHexChar &&
  cs.get? 18 == some (Char.ofNat 45) &&
  (match cs.get? 19 with
   | some c => isVariantChar c
   | Option.none => false) &&
  ((cs.drop 20).take 3).all isHexChar &&
  cs.get? 23 == some (Char.ofNat 45) &&
  (cs.drop 24).all isHexChar

/-- Semantics of `re.match` on a pattern of the form `^core$` in
default (single-line, non-MULTILINE) mode: the core matches the whole
string, or the whole string minus exactly one trailing newline. -/
def dollarAnchoredMatch (core : List Char → Bool) (cs : List Char) : Bool :=
  core cs || (cs.getLast? == some (Char.ofNat 10) && core cs.dropLast)

/-- `ValidationUtils.is_valid_uuid` on a string argument:
`bool(cls.UUID_PATTERN.match(value))`. -/
def is_valid_uuid (value : String) : Bool :=
  dollarAnchoredMatch uuidCore value.data

/-- `[a-zA-Z0-9._%+-]` — the email local-part character class. -/
def isLocalChar (c : Char) : Bool :=
  c.isAlpha || c.isDigit || c == Char.ofNat 46 || c == Char.ofNat 95 ||
    c == Char.ofNat 37 || c == Char.ofNat 43 || c == Char.ofNat 45

/-- `[a-zA-Z0-9.-]` — the email domain character class. -/
def isDomainChar (c : Char) : Bool :=
  c.isAlpha || c.isDigit || c == Char.ofNat 46 || c == Char.ofNat 45

/-- All ways to split a list into a prefix/suffix pair. -/
def splitsOf : List Char → List (List Char × List Char)
  | [] => [([], [])]
  | c :: cs => ([], c :: cs) :: (splitsOf cs).map (fun p => (c :: p.1, p.2))

/-- Core of the email pattern `[a-zA-Z0-9._%+-]+@[a-zA-Z0-9.-]+\.[a-zA-Z]{2,}`
against an entire character list: a full match exists iff the list
decomposes as nonempty-local ++ `@` ++ nonempty-domain ++ `.` ++
(two-or-more letters). -/
def emailCore (cs : List Char) : Bool :=
  (splitsOf cs).any fun p =>
    !p.1.isEmpty && p.1.all isLocalChar &&
    (match p.2 with
     | c :: rest =>
       c == Char.ofNat 64 &&
       (splitsOf rest).any fun q =>
         !q.1.isEmpty && q.1.all isDomainChar &&
         (match q.2 with
          | d :: tld =>
            d == Char.ofNat 46 && decide (2 ≤ tld.length) && tld.all Char.isAlpha
          | [] => false)
     | [] => false)

/-- `ValidationUtils.is_valid_email` on a string argument:
`bool(re.match(pattern, email))`. -/
def is_valid_email (email : String) : Bool :=
  dollarAnchoredMatch emailCore email.data

/-- `ValidationUtils.is_valid_uuid` at the dynamic-typing level: Python's
`re` module raises `TypeError` (`expected string or bytes-like object`)
when `value` is not a string. -/
def is_valid_uuid_py (value : PyVal) : Except PyErr Bool :=
  match value with
  | .str s => .ok (is_valid_uuid s)
  | _ => .error (.typeError "expected string or bytes-like object")

/-- `ValidationUtils.is_valid_email` at the dynamic-typing level:
`re.match` raises `TypeError` when `email` is not a string. -/
def is_valid_email_py (email : PyVal) : Except PyErr Bool :=
  match email with
  | .str s => .ok (is_valid_email s)
  | _ => .error (.typeError "expected string or bytes-like object")

/-- The canonical UUID textual grammar, written from the spec's words:
five hyphen-separated hex groups of lengths 8-4-4-4-12, version nibble
in 1–5, variant nibble in {8,9,a,b}, case-insensitive — over the whole
value, with no newline allowance.  Kept separate from `is_valid_uuid`
so the two can be compared. -/
def canonicalUuidGrammar (value : String) : Bool :=
  uuidCore value.data

/-! ## validation.py — is_valid_date_string

`is_valid_date_string` calls `date_string.replace('Z', '+00:00')` and
feeds the result to `datetime.fromisoformat`, catching only
`(ValueError, TypeError)`.  On a non-string argument (`None`, an
integer) the attribute lookup `.replace` itself raises
`AttributeError`, which the handler does not catch. -/

/-- Digits of a character list read as a decimal number. -/
def digitsToNat (cs : List Char) : Nat :=
  cs.foldl (fun a c => a * 10 + (c.toNat - 48)) 0

/-- Consume exactly `n` decimal digits; return their value and the rest. -/
def takeDigits (n : Nat) (cs : List Char) : Option (Nat × List Char) :=
  let ds := cs.take n
  if ds.length == n && ds.all Char.isDigit then
    some (digitsToNat ds, cs.drop n)
  else
    Option.none

/-- Consume one expected character. -/
def expectChar (c : Char) (cs : List Char) : Option (List Char) :=
  match cs with
  | c' :: rest => if c' == c then some rest else Option.none
  | [] => Option.none

/-- Gregorian leap-year rule. -/
def isLeapYear (y : Nat) : Bool :=
  y % 4 == 0 && (y % 100 != 0 || y % 400 == 0)

/-- Number of days of month `m` (1-based) in year `y`. -/
def daysInMonth (y m : Nat) : Nat :=
  if m == 2 then (if isLeapYear y then 29 else 28)
  else if m == 4 || m == 6 || m == 9 || m == 11 then 30
  else 31

/-- Parse the date part `YYYY-MM-DD` with calendar validation. -/
def parseIsoDate (cs : List Char) : Option (List Char) := do
  let (y, cs) ← takeDigits 4 cs
  let cs ← expectChar (Char.ofNat 45) cs
  let (m, cs) ← takeDigits 2 cs
  let cs ← expectChar (Char.ofNat 45) cs
  let (d, cs) ← takeDigits 2 cs
  if 1 ≤ y && 1 ≤ m && m ≤ 12 && 1 ≤ d && d ≤ daysInMonth y m then
    some cs
  else
    Option.none

/-- Parse an optional fractional-seconds part `.d+`. -/
def parseIsoFraction (cs : List Char) : List Char :=
  match expectChar (Char.ofNat 46) cs with
  | some rest =>
    if (rest.take 1).all Char.isDigit && !rest.isEmpty then
      rest.dropWhile Char.isDigit
    else
      cs
  | Option.none => cs

/-- Parse the time part `HH:MM[:SS[.ffffff]]` with range validation. -/
def parseIsoTime (cs : List Char) : Option (List Char) := do
  let (h, cs) ← takeDigits 2 cs
  let cs ← expectChar (Char.ofNat 58) cs
  let (mi, cs) ← takeDigits 2 cs
  if h ≤ 23 && mi ≤ 59 then
    match expectChar (Char.ofNat 58) cs with
    | some rest => do
      let (s, rest) ← takeDigits 2 rest
      if s ≤ 59 then some (parseIsoFraction rest) else Option.none
    | Option.none => some cs
  else
    Option.none

/-- Parse a UTC offset `±HH:MM` with range validation. -/
def parseIsoOffset (cs : List Char) : Option (List Char) := do
  let cs ←
    match cs with
    | c :: rest =>
      if c == Char.ofNat 43 || c == Char.ofNat 45 then some rest else Option.none
    | [] => Option.none
  let (oh, cs) ← takeDigits 2 cs
  let cs ← expectChar (Char.ofNat 58) cs
  let (om, cs) ← takeDigits 2 cs
  if oh ≤ 23 && om ≤ 59 then some cs else Option.none

/-- Model of the standard library's `datetime.fromisoformat` acceptance
on its core forms: `YYYY-MM-DD`, optionally followed by `T` and a time
`HH:MM[:SS[.ffffff]]`, optionally followed by an offset `±HH:MM`; all
fields calendar/range validated.  `true` means the call returns a
datetime, `false` means it raises `ValueError`. -/
def fromisoformatOk (s : String) : Bool :=
  match parseIsoDate s.data with
  | Option.none => false
  | some rest =>
    match rest with
    | [] => true
    | sep :: rest' =>
      sep == Char.ofNat 84 &&
      (match parseIsoTime rest' with
       | Option.none => false
       | some rest'' =>
         match rest'' with
         | [] => true
         | _ =>
           match parseIsoOffset rest'' with
           | some [] => true
           | _ => false)

/-- `str.replace('Z', '+00:00')` — the pattern is the single character
`Z`, so every `Z` in the string is replaced by `+00:00`. -/
def replaceZ (s : String) : String :=
  String.mk
    ((s.data.map fun c =>
      if c == Char.ofNat 90 then "+00:00".data else [c]).flatten)

/-- `ValidationUtils.is_valid_date_string`: replace `Z`, try
`fromisoformat`, catch only `ValueError` and `TypeError`.  On `None`
or an integer the `.replace` attribute access raises `AttributeError`,
which escapes the handler. -/
def is_valid_date_string (date_string : PyVal) : Except PyErr Bool :=
  match date_string with
  | .str s => .ok (fromisoformatOk (replaceZ s))
  | .none =>
    .error (.attributeError "NoneType object has no attribute replace")
  | .int _ =>
    .error (.attributeError "int object has no attribute replace")

/-! ## validation.py — validate_model

`validate_model(model_class, data)` is generic over the Pydantic model
class; the embedding takes the class's constructor as a function that
either returns an instance or raises.  `ValidationError` is caught
first (warning log), then any other `Exception` (error log). -/

/-- `ValidationUtils.validate_model`: returns the triple
`(success, instance-or-none, message-or-none)` together with the log
records it emits; all constructor failures are converted, never
re-raised. -/
def validate_model {α : Type} (model_class : Params → Except PyErr α)
    (data : Params) : (Bool × Option α × Option String) × List LogEntry :=
  match model_class data with
  | .ok model_instance => ((true, some model_instance, Option.none), [])
  | .error (.validationError e) =>
    let error_msg := "Validation failed: " ++ e
    ((false, Option.none, some error_msg),
      [{ level := .warning, message := "Model validation failed",
         error := some error_msg, data := some data }])
  | .error e =>
    let error_msg := "Unexpected validation error: " ++ e.msg
    ((false, Option.none, some error_msg),
      [{ level := .error, message := "Unexpected validation error",
         error := some error_msg, data := some data }])

/-! ## db.py — DatabaseClient

The SQLAlchemy driver is modelled as an abstract environment of
operations: creating an engine from a connection string is pure and
lazy (it opens nothing), while connecting, executing a statement and
committing may each fail with an exception.  The embedding threads the
client's mutable `_engine` field explicitly and records the driver
calls it performs, in order, as a list of events. -/

/-- The fallible operations of the underlying database driver.
`Engine`, `Conn` and `Res` are the driver's engine handle, scoped
connection and statement-result types. -/
structure DbEnv (Engine Conn Res : Type) where
  create_engine : String → Engine
  connect : Engine → Except PyErr Conn
  exec : Conn → String → Params → Except PyErr Res
  commit : Conn → Except PyErr Unit

/-- Driver calls issued by a database operation, in order. -/
inductive DbEvent where
  | connected
  | executed (query : String) (params : Params)
  | committed
deriving Repr, DecidableEq

/-- The state of a `DatabaseClient` instance: the resolved connection
string and the lazily-created engine handle (`self._engine`). -/
structure DatabaseClient (Engine : Type) where
  connection_string : String
  _engine : Option Engine := Option.none
deriving Repr, DecidableEq

/-- Python truthiness of an `Optional[str]`: `None` and `""` are falsy. -/
def pyStrTruthy : Option String → Bool
  | Option.none => false
  | some s => !s.isEmpty

/-- Python `a or b` on `Optional[str]` operands. -/
def pyOrStr (a b : Option String) : Option String :=
  if pyStrTruthy a then a else b

/-- `DatabaseClient.__init__(connection_string=None)`:
`self.connection_string = connection_string or os.getenv('DATABASE_URL')`,
then `if not self.connection_string: raise ValueError(...)`.
`env_DATABASE_URL` is the value of the `DATABASE_URL` configuration
variable (`None` when unset). -/
def DatabaseClient.init {E : Type}
    (connection_string env_DATABASE_URL : Option String) :
    Except PyErr (DatabaseClient E) :=
  match pyOrStr connection_string env_DATABASE_URL with
  | some s =>
    if s.isEmpty then
      .error (.valueError "DATABASE_URL environment variable not set")
    else
      .ok { connection_string := s }
  | Option.none =>
    .error (.valueError "DATABASE_URL environment variable not set")

/-- The `engine` property: create the engine on first access and cache
it in `self._engine`; return the (possibly updated) client state along
with the handle. -/
def DatabaseClient.engine {E C R : Type} (self : DatabaseClient E)
    (env : DbEnv E C R) : E × DatabaseClient E :=
  match self._engine with
  | some e => (e, self)
  | Option.none =>
    let e := env.create_engine self.connection_string
    (e, { self with _engine := some e })

/-- `DatabaseClient.execute_query(query, params=None)`: connect from the
memoized engine, execute `text(query)` with `params or {}`, commit, and
return the result; on any failure log at error level with the query and
the original `params` value attached, then re-raise the same failure. -/
def DatabaseClient.execute_query {E C R : Type} (self : DatabaseClient E)
    (env : DbEnv E C R) (query : String) (params : Option Params) :
    Except PyErr R × DatabaseClient E × List DbEvent × List LogEntry :=
  let p := self.engine env
  match env.connect p.1 with
  | .error e =>
    (.error e, p.2, [],
      [{ level := .error, message := "Database query failed: " ++ e.msg,
         query := some query, params := some params }])
  | .ok conn =>
    match env.exec conn query (params.getD []) with
    | .error e =>
      (.error e, p.2, [.connected],
        [{ level := .error, message := "Database query failed: " ++ e.msg,
           query := some query, params := some params }])
    | .ok result =>
      match env.commit conn with
      | .error e =>
        (.error e, p.2, [.connected, .executed query (params.getD [])],
          [{ level := .error, message := "Database query failed: " ++ e.msg,
             query := some query, params := some params }])
      | .ok _ =>
        (.ok result, p.2,
          [.connected, .executed query (params.getD []), .committed], [])

/-- `DatabaseClient.health_check()`: connect from the memoized engine
and execute `SELECT 1`; `True` on success, `False` on any failure
(the failure is logged, not raised) — the whole body sits under
`except Exception`, so the function always returns a boolean. -/
def DatabaseClient.health_check {E C R : Type} (self : DatabaseClient E)
    (env : DbEnv E C R) :
    Bool × DatabaseClient E × List DbEvent × List LogEntry :=
  let p := self.engine env
  match env.connect p.1 with
  | .error e =>
    (false, p.2, [],
      [{ level := .error,
         message := "Database health check failed: " ++ e.msg }])
  | .ok conn =>
    match env.exec conn "SELECT 1" [] with
    | .error e =>
      (false, p.2, [.connected],
        [{ level := .error,
           message := "Database health check failed: " ++ e.msg }])
    | .ok _ =>
      (true, p.2, [.connected, .executed "SELECT 1" []], [])

/-! ## Driver environments used to witness the database theorems -/

/-- A driver in which every operation succeeds. -/
def okEnv : DbEnv Nat Nat Nat where
  create_engine := fun _ => 7
  connect := fun _ => .ok 1
  exec := fun _ _ _ => .ok 0
  commit := fun _ => .ok ()

/-- A driver whose connection attempt always fails. -/
def failEnv : DbEnv Nat Nat Nat where
  create_engine := fun _ => 0
  connect := fun _ => .error (.otherError "connection refused")
  exec := fun _ _ _ => .error (.otherError "no connection")
  commit := fun _ => .error (.otherError "no connection")

/-! ## Theorems -/

/-- Claim C1: `is_valid_date_string` accepts an ISO-8601 date/time with a
trailing `Z` and rejects an out-of-range date, and it never raises on
string input; but on non-string input (`None`, an integer) the
`.replace` attribute access raises `AttributeError` — only `ValueError`
and `TypeError` are caught — instead of returning false as the spec
requires. -/
theorem date_string_nonstring_input_raises :
    is_valid_date_string (.str "2024-01-01T00:00:00Z") = .ok true ∧
    is_valid_date_string (.str "2024-13-01") = .ok false ∧
    (∀ s : String, ∃ b : Bool, is_valid_date_string (.str s) = .ok b) ∧
    is_valid_date_string .none =
      .error (.attributeError "NoneType object has no attribute replace") ∧
    is_valid_date_string (.int 5) =
      .error (.attributeError "int object has no attribute replace") :=
  ⟨rfl, rfl, fun _ => ⟨_, rfl⟩, rfl, rfl⟩

/-- Claim C6 (counterexample): `is_valid_uuid` returns true on a string
that does not match the canonical UUID textual grammar — an
otherwise-valid UUID followed by a trailing newline — so the claimed
equivalence with the canonical grammar fails. -/
theorem uuid_trailing_newline_counterexample :
    is_valid_uuid "123e4567-e89b-12d3-a456-426614174000\n" = true ∧
    canonicalUuidGrammar "123e4567-e89b-12d3-a456-426614174000\n" = false :=
  ⟨rfl, rfl⟩

/-- Claim C6 (amended): `is_valid_uuid value` returns true iff the value,
after removal of at most one trailing newline, matches the canonical
UUID grammar (8-4-4-4-12 case-insensitive hex groups, version nibble
1–5, variant nibble {8,9,a,b}); the spec's three examples hold. -/
theorem uuid_match_amended (value : String) :
    (is_valid_uuid value = true ↔
      canonicalUuidGrammar value = true ∨
        (value.data.getLast? = some (Char.ofNat 10) ∧
          canonicalUuidGrammar (String.mk value.data.dropLast) = true)) ∧
    is_valid_uuid "550e8400-e29b-41d4-a716-446655440000" = true ∧
    is_valid_uuid "not-a-uuid" = false ∧
    is_valid_uuid "550e8400-e29b-61d4-a716-446655440000" = false := by
  refine ⟨?_, rfl, rfl, rfl⟩
  simp [is_valid_uuid, dollarAnchoredMatch, canonicalUuidGrammar]

/-- Witness for `uuid_match_amended` at the spec's positive example. -/
theorem uuid_match_amended_witness :
    is_valid_uuid "550e8400-e29b-41d4-a716-446655440000" = true :=
  (uuid_match_amended "550e8400-e29b-41d4-a716-446655440000").2.1

/-- Claim C9: an otherwise-valid UUID and an otherwise-valid email, each
followed by a single trailing newline, are accepted — the `$` anchor of
the patterns also matches just before a final newline — although
neither matches its core single-line grammar. -/
theorem dollar_anchor_newline_acceptance :
    is_valid_uuid "550e8400-e29b-41d4-a716-446655440000\n" = true ∧
    uuidCore "550e8400-e29b-41d4-a716-446655440000\n".data = false ∧
    is_valid_email "a@b.co\n" = true ∧
    emailCore "a@b.co\n".data = false :=
  ⟨rfl, rfl, rfl, by decide⟩

/-- Claim C10: on any non-string input, `is_valid_uuid` and
`is_valid_email` raise `TypeError` from `re.match` rather than
returning false: the predicates are not total the way
`is_valid_date_string` is specified to be. -/
theorem uuid_email_nonstring_type_error (v : PyVal) (h : ∀ s, v ≠ .str s) :
    is_valid_uuid_py v =
      .error (.typeError "expected string or bytes-like object") ∧
    is_valid_email_py v =
      .error (.typeError "expected string or bytes-like object") := by
  cases v with
  | str s => exact absurd rfl (h s)
  | none => exact ⟨rfl, rfl⟩
  | int n => exact ⟨rfl, rfl⟩

/-- Witness for `uuid_email_nonstring_type_error` at the input `None`. -/
theorem uuid_email_nonstring_type_error_witness :
    is_valid_uuid_py .none =
      .error (.typeError "expected string or bytes-like object") ∧
    is_valid_email_py .none =
      .error (.typeError "expected string or bytes-like object") :=
  uuid_email_nonstring_type_error .none (fun _ h => PyVal.noConfusion h)

/-- Claim C4: construction succeeds for every non-empty explicit
connection string, and fails with the configuration `ValueError` when no
string is supplied and `DATABASE_URL` is unset. -/
theorem init_nonempty_succeeds_absent_fails {E : Type} (s : String)
    (h : s ≠ "") (envURL : Option String) :
    DatabaseClient.init (E := E) (some s) envURL =
      .ok { connection_string := s } ∧
    DatabaseClient.init (E := E) Option.none Option.none =
      .error (.valueError "DATABASE_URL environment variable not set") := by
  have hs : s.isEmpty = false := by
    cases hb : s.isEmpty with
    | true => exact absurd ((String.isEmpty_iff s).mp hb) h
    | false => rfl
  constructor
  · simp [DatabaseClient.init, pyOrStr, pyStrTruthy, hs]
  · rfl

/-- Witness for `init_nonempty_succeeds_absent_fails` at a concrete
connection string with `DATABASE_URL` unset. -/
theorem init_nonempty_succeeds_absent_fails_witness :
    DatabaseClient.init (E := Nat) (some "postgresql://db") Option.none =
      .ok { connection_string := "postgresql://db" } ∧
    DatabaseClient.init (E := Nat) Option.none Option.none =
      .error (.valueError "DATABASE_URL environment variable not set") :=
  init_nonempty_succeeds_absent_fails "postgresql://db" (by decide) Option.none

/-- Claim C8: an explicit empty connection string is falsy under
`connection_string or os.getenv('DATABASE_URL')`, so it is ignored in
favour of `DATABASE_URL`; the configuration error is raised exactly when
that fallback is also absent or empty. -/
theorem init_empty_string_falls_back {E : Type} (u : String) (hu : u ≠ "") :
    (∀ envURL, DatabaseClient.init (E := E) (some "") envURL =
      DatabaseClient.init (E := E) Option.none envURL) ∧
    DatabaseClient.init (E := E) (some "") (some u) =
      .ok { connection_string := u } ∧
    DatabaseClient.init (E := E) (some "") Option.none =
      .error (.valueError "DATABASE_URL environment variable not set") ∧
    DatabaseClient.init (E := E) (some "") (some "") =
      .error (.valueError "DATABASE_URL environment variable not set") := by
  have hu' : u.isEmpty = false := by
    cases hb : u.isEmpty with
    | true => exact absurd ((String.isEmpty_iff u).mp hb) hu
    | false => rfl
  refine ⟨fun envURL => rfl, ?_, rfl, rfl⟩
  have h2 : DatabaseClient.init (E := E) (some "") (some u) =
      if u.isEmpty then
        .error (.valueError "DATABASE_URL environment variable not set")
      else .ok { connection_string := u } := rfl
  rw [h2, hu']
  simp

/-- Witness for `init_empty_string_falls_back`: an empty explicit string
with `DATABASE_URL` set to `"db"` yields a client using `"db"`. -/
theorem init_empty_string_falls_back_witness :
    DatabaseClient.init (E := Nat) (some "") (some "db") =
      .ok { connection_string := "db" } :=
  (init_empty_string_falls_back "db" (by decide)).2.1

/-- Claim C5: `validate_model` never raises.  Success yields
`(true, instance, none)` with no log; a `ValidationError` yields a
warning-level log with the data attached and `(false, none, message)`
where the message extends the prefix "Validation failed"; any other
failure yields the same negative shape with an error-level log. -/
theorem validate_model_total_contract {α : Type}
    (model_class : Params → Except PyErr α) (data : Params) :
    (∀ i, model_class data = .ok i →
      validate_model model_class data = ((true, some i, Option.none), [])) ∧
    (∀ m, model_class data = .error (.validationError m) →
      validate_model model_class data =
        ((false, Option.none, some ("Validation failed: " ++ m)),
          [{ level := .warning, message := "Model validation failed",
             error := some ("Validation failed: " ++ m),
             data := some data }]) ∧
      ∃ rest, "Validation failed: " ++ m = "Validation failed" ++ rest) ∧
    (∀ e, model_class data = .error e → (∀ m, e ≠ .validationError m) →
      (validate_model model_class data).1.1 = false ∧
      (validate_model model_class data).1.2.1 = Option.none ∧
      (validate_model model_class data).1.2.2 =
        some ("Unexpected validation error: " ++ e.msg) ∧
      (validate_model model_class data).2 =
        [{ level := .error, message := "Unexpected validation error",
           error := some ("Unexpected validation error: " ++ e.msg),
           data := some data }]) := by
  refine ⟨?_, ?_, ?_⟩
  · intro i hi
    simp [validate_model, hi]
  · intro m hm
    refine ⟨by simp [validate_model, hm], ": " ++ m, ?_⟩
    have hsplit : ("Validation failed" ++ ": ") = "Validation failed: " := by
      decide
    rw [← hsplit, String.append_assoc]
  · intro e he hne
    cases e with
    | validationError m => exact absurd rfl (hne m)
    | valueError m => simp [validate_model, he, PyErr.msg]
    | typeError m => simp [validate_model, he, PyErr.msg]
    | attributeError m => simp [validate_model, he, PyErr.msg]
    | otherError m => simp [validate_model, he, PyErr.msg]

/-- Witness for `validate_model_total_contract`: a model class whose
constructor raises a `ValidationError` on the empty mapping. -/
theorem validate_model_total_contract_witness :
    validate_model
        (fun _ : Params =>
          (.error (.validationError "field required") : Except PyErr Nat)) [] =
      ((false, Option.none, some ("Validation failed: " ++ "field required")),
        [{ level := .warning, message := "Model validation failed",
           error := some ("Validation failed: " ++ "field required"),
           data := some [] }]) :=
  ((validate_model_total_contract
      (fun _ : Params =>
        (.error (.validationError "field required") : Except PyErr Nat))
      []).2.1 "field required" rfl).1

/-- Claim C2: `health_check` always returns a boolean (its whole body is
under `except Exception`): true exactly when connecting and executing
`SELECT 1` both succeed, false on any failure; in contrast,
`execute_query` surfaces the very same driver failure as a raised
exception. -/
theorem health_check_boolean_contract {E C R : Type} (env : DbEnv E C R)
    (self : DatabaseClient E) :
    ((self.health_check env).1 = true ↔
      ∃ conn r, env.connect (self.engine env).1 = .ok conn ∧
        env.exec conn "SELECT 1" [] = .ok r) ∧
    (∀ e, env.connect (self.engine env).1 = .error e →
      (self.health_check env).1 = false ∧
      (self.execute_query env "SELECT 1" Option.none).1 = .error e) ∧
    (∀ conn e, env.connect (self.engine env).1 = .ok conn →
      env.exec conn "SELECT 1" [] = .error e →
      (self.health_check env).1 = false ∧
      (self.execute_query env "SELECT 1" Option.none).1 = .error e) := by
  cases h1 : env.connect (self.engine env).1 with
  | error e1 =>
    have hhc : (self.health_check env).1 = false := by
      simp [DatabaseClient.health_check, h1]
    have heq : (self.execute_query env "SELECT 1" Option.none).1 =
        .error e1 := by
      simp [DatabaseClient.execute_query, h1]
    refine ⟨?_, ?_, ?_⟩
    · rw [hhc]
      refine iff_of_false (by simp) ?_
      rintro ⟨conn, r, hc, hx⟩
      exact Except.noConfusion hc
    · intro e he
      cases he
      exact ⟨hhc, heq⟩
    · intro conn e hc
      exact Except.noConfusion hc
  | ok conn1 =>
    cases h2 : env.exec conn1 "SELECT 1" [] with
    | error e2 =>
      have hhc : (self.health_check env).1 = false := by
        simp [DatabaseClient.health_check, h1, h2]
      have heq : (self.execute_query env "SELECT 1" Option.none).1 =
          .error e2 := by
        simp [DatabaseClient.execute_query, h1, h2]
      refine ⟨?_, ?_, ?_⟩
      · rw [hhc]
        refine iff_of_false (by simp) ?_
        rintro ⟨conn, r, hc, hx⟩
        injection hc with hce
        subst hce
        rw [h2] at hx
        exact Except.noConfusion hx
      · intro e he
        exact Except.noConfusion he
      · intro conn e hc hx
        injection hc with hce
        subst hce
        rw [h2] at hx
        injection hx with hxe
        subst hxe
        exact ⟨hhc, heq⟩
    | ok r2 =>
      have hhc : (self.health_check env).1 = true := by
        simp [DatabaseClient.health_check, h1, h2]
      refine ⟨?_, ?_, ?_⟩
      · rw [hhc]
        exact iff_of_true rfl ⟨conn1, r2, rfl, h2⟩
      · intro e he
        exact Except.noConfusion he
      · intro conn e hc hx
        injection hc with hce
        subst hce
        rw [h2] at hx
        exact Except.noConfusion hx

/-- Witness for `health_check_boolean_contract`: against a driver whose
connection attempt fails, the probe returns `false` while
`execute_query` raises the same failure. -/
theorem health_check_boolean_contract_witness :
    (({ connection_string := "c" } : DatabaseClient Nat).health_check
        failEnv).1 = false ∧
    (({ connection_string := "c" } : DatabaseClient Nat).execute_query
        failEnv "SELECT 1" Option.none).1 =
      .error (.otherError "connection refused") :=
  (health_check_boolean_contract failEnv { connection_string := "c" }).2.1
    (.otherError "connection refused") rfl

/-- Claim C3: `execute_query` succeeds exactly when connect, execute and
commit all succeed, in that order, returning the driver's result; on any
failure it emits exactly one error-level log record carrying the query
and the original params value and returns that same failure unchanged;
no driver call is retried and a failed run never commits. -/
theorem execute_query_commit_log_reraise {E C R : Type} (env : DbEnv E C R)
    (self : DatabaseClient E) (query : String) (params : Option Params) :
    (∀ r, (self.execute_query env query params).1 = .ok r ↔
      ∃ conn, env.connect (self.engine env).1 = .ok conn ∧
        env.exec conn query (params.getD []) = .ok r ∧
        env.commit conn = .ok ()) ∧
    (∀ r, (self.execute_query env query params).1 = .ok r →
      (self.execute_query env query params).2.2.1 =
        [.connected, .executed query (params.getD []), .committed] ∧
      (self.execute_query env query params).2.2.2 = []) ∧
    (∀ e, (self.execute_query env query params).1 = .error e →
      (self.execute_query env query params).2.2.2 =
        [{ level := .error, message := "Database query failed: " ++ e.msg,
           query := some query, params := some params }] ∧
      DbEvent.committed ∉ (self.execute_query env query params).2.2.1) ∧
    ((self.execute_query env query params).2.2.1 = [] ∨
     (self.execute_query env query params).2.2.1 = [.connected] ∨
     (self.execute_query env query params).2.2.1 =
        [.connected, .executed query (params.getD [])] ∨
     (self.execute_query env query params).2.2.1 =
        [.connected, .executed query (params.getD []), .committed]) := by
  cases h1 : env.connect (self.engine env).1 with
  | error e1 =>
    have hres : self.execute_query env query params =
        (.error e1, (self.engine env).2, [],
          [{ level := .error, message := "Database query failed: " ++ e1.msg,
             query := some query, params := some params }]) := by
      simp [DatabaseClient.execute_query, h1]
    refine ⟨?_, ?_, ?_, ?_⟩
    · intro r
      rw [hres]
      refine iff_of_false (fun hr => Except.noConfusion hr) ?_
      rintro ⟨conn, hc, hx, hm⟩
      exact Except.noConfusion hc
    · intro r hr
      rw [hres] at hr
      exact Except.noConfusion hr
    · intro e he
      rw [hres] at he ⊢
      injection he with hee
      subst hee
      simp
    · rw [hres]
      simp
  | ok conn1 =>
    cases h2 : env.exec conn1 query (params.getD []) with
    | error e2 =>
      have hres : self.execute_query env query params =
          (.error e2, (self.engine env).2, [.connected],
            [{ level := .error,
               message := "Database query failed: " ++ e2.msg,
               query := some query, params := some params }]) := by
        simp [DatabaseClient.execute_query, h1, h2]
      refine ⟨?_, ?_, ?_, ?_⟩
      · intro r
        rw [hres]
        refine iff_of_false (fun hr => Except.noConfusion hr) ?_
        rintro ⟨conn, hc, hx, hm⟩
        injection hc with hce
        subst hce
        rw [h2] at hx
        exact Except.noConfusion hx
      · intro r hr
        rw [hres] at hr
        exact Except.noConfusion hr
      · intro e he
        rw [hres] at he ⊢
        injection he with hee
        subst hee
        simp
      · rw [hres]
        simp
    | ok r2 =>
      cases h3 : env.commit conn1 with
      | error e3 =>
        have hres : self.execute_query env query params =
            (.error e3, (self.engine env).2,
              [.connected, .executed query (params.getD [])],
              [{ level := .error,
                 message := "Database query failed: " ++ e3.msg,
                 query := some query, params := some params }]) := by
          simp [DatabaseClient.execute_query, h1, h2, h3]
        refine ⟨?_, ?_, ?_, ?_⟩
        · intro r
          rw [hres]
          refine iff_of_false (fun hr => Except.noConfusion hr) ?_
          rintro ⟨conn, hc, hx, hm⟩
          injection hc with hce
          subst hce
          rw [h3] at hm
          exact Except.noConfusion hm
        · intro r hr
          rw [hres] at hr
          exact Except.noConfusion hr
        · intro e he
          rw [hres] at he ⊢
          injection he with hee
          subst hee
          simp
        · rw [hres]
          simp
      | ok u =>
        have hres : self.execute_query env query params =
            (.ok r2, (self.engine env).2,
              [.connected, .executed query (params.getD []), .committed],
              []) := by
          simp [DatabaseClient.execute_query, h1, h2, h3]
        refine ⟨?_, ?_, ?_, ?_⟩
        · intro r
          rw [hres]
          simp only [Except.ok.injEq]
          constructor
          · intro hr
            subst hr
            exact ⟨conn1, rfl, h2, h3⟩
          · rintro ⟨conn, hc, hx, hm⟩
            subst hc
            rw [h2] at hx
            exact Except.ok.inj hx
        · intro r hr
          rw [hres]
          exact ⟨rfl, rfl⟩
        · intro e he
          rw [hres] at he
          exact Except.noConfusion he
        · rw [hres]
          simp

/-- Witness for `execute_query_commit_log_reraise`: against a driver
where every call succeeds, a statement runs, commits and logs nothing. -/
theorem execute_query_commit_log_reraise_witness :
    (({ connection_string := "c" } : DatabaseClient Nat).execute_query
        okEnv "INSERT INTO t VALUES (:v)" Option.none).2.2.1 =
      [.connected, .executed "INSERT INTO t VALUES (:v)" [], .committed] ∧
    (({ connection_string := "c" } : DatabaseClient Nat).execute_query
        okEnv "INSERT INTO t VALUES (:v)" Option.none).2.2.2 = [] :=
  (execute_query_commit_log_reraise okEnv { connection_string := "c" }
    "INSERT INTO t VALUES (:v)" Option.none).2.1 0 rfl

/-- Claim C7: the engine handle is memoized: the first access caches it,
an access on a client that already holds a handle returns that handle
and leaves the state unchanged, repeated access is idempotent, and
`execute_query` and `health_check` leave the client in exactly the
engine-accessed state — no operation replaces or discards a handle. -/
theorem engine_memoization {E C R : Type} (env : DbEnv E C R)
    (self : DatabaseClient E) :
    ((self.engine env).2._engine = some (self.engine env).1) ∧
    (∀ e, self._engine = some e → self.engine env = (e, self)) ∧
    ((self.engine env).2.engine env =
      ((self.engine env).1, (self.engine env).2)) ∧
    (∀ query params,
      (self.execute_query env query params).2.1 = (self.engine env).2) ∧
    ((self.health_check env).2.1 = (self.engine env).2) := by
  have hcached : ∀ (c : DatabaseClient E) (e : E), c._engine = some e →
      c.engine env = (e, c) := by
    intro c e he
    simp [DatabaseClient.engine, he]
  have hcache : (self.engine env).2._engine = some (self.engine env).1 := by
    cases h : self._engine with
    | some e => simp [DatabaseClient.engine, h]
    | none => simp [DatabaseClient.engine, h]
  refine ⟨hcache, hcached self, hcached _ _ hcache, ?_, ?_⟩
  · intro query params
    cases h1 : env.connect (self.engine env).1 with
    | error e1 => simp [DatabaseClient.execute_query, h1]
    | ok conn1 =>
      cases h2 : env.exec conn1 query (params.getD []) with
      | error e2 => simp [DatabaseClient.execute_query, h1, h2]
      | ok r2 =>
        cases h3 : env.commit conn1 with
        | error e3 => simp [DatabaseClient.execute_query, h1, h2, h3]
        | ok u => simp [DatabaseClient.execute_query, h1, h2, h3]
  · cases h1 : env.connect (self.engine env).1 with
    | error e1 => simp [DatabaseClient.health_check, h1]
    | ok conn1 =>
      cases h2 : env.exec conn1 "SELECT 1" [] with
      | error e2 => simp [DatabaseClient.health_check, h1, h2]
      | ok r2 => simp [DatabaseClient.health_check, h1, h2]

/-- Witness for `engine_memoization`: a client already holding handle `7`
returns that same handle with its state untouched. -/
theorem engine_memoization_witness :
    ({ connection_string := "c", _engine := some 7 } :
        DatabaseClient Nat).engine okEnv =
      (7, { connection_string := "c", _engine := some 7 }) :=
  (engine_memoization okEnv
    { connection_string := "c", _engine := some 7 }).2.1 7 rfl

end Auctiondeal
